import Mathlib

/-!
Shallow embedding of the AquaponicsIOT repository core
(src/api_server.py and src/rpi_sensor_simulator.py).

Numeric sensor values are modelled as rationals; Python `round(x, d)`
(round-half-to-even) is modelled exactly by `pyRound`.  `math.sin` is
transcendental, so the simulator definitions are parameterised by a
function `sinD : ℤ → ℚ` giving the value of `sin(2*pi*h/24)` at integer
argument `h`; no claim depends on the actual sine values.  Random draws
(`random.gauss` results) are passed in explicitly as a `Draws` record,
one field per call site, in program order.
-/

namespace Aquaponics

/-- Round-half-to-even to an integer, as Python's builtin `round` on a
one-argument call: nearest integer, ties to the even neighbour. -/
def roundHE (x : ℚ) : ℤ :=
  if x - ⌊x⌋ < 1/2 then ⌊x⌋
  else if 1/2 < x - ⌊x⌋ then ⌊x⌋ + 1
  else if 2 ∣ ⌊x⌋ then ⌊x⌋ else ⌊x⌋ + 1

/-- Python `round(x, d)`: round-half-to-even at `d` decimal digits. -/
def pyRound (d : ℕ) (x : ℚ) : ℚ :=
  (roundHE (x * 10 ^ d) : ℚ) / 10 ^ d

/-- The threshold configuration: the shape of the `THRESHOLDS` dict
in src/api_server.py. -/
structure Thresholds where
  do_low : ℚ
  ammonia_high : ℚ
  water_level_low : ℚ
  temp_high : ℚ
  ph_low : ℚ
deriving DecidableEq

/-- The module-level `THRESHOLDS` constant of src/api_server.py. -/
def THRESHOLDS : Thresholds :=
  { do_low := 5.0
  , ammonia_high := 0.5
  , water_level_low := 80.0
  , temp_high := 26.0
  , ph_low := 6.0 }

/-- A payload dict as received by the api server over MQTT: every field
may be absent (`reading.get(key, default)` in the source).  `diagnosis`
is attached by the server at ingestion time. -/
structure Payload where
  timestamp : Option String
  water_temp_C : Option ℚ
  air_temp_C : Option ℚ
  pH : Option ℚ
  ammonia_mgL : Option ℚ
  dissolved_oxygen_mgL : Option ℚ
  ec_uScm : Option ℚ
  water_level_percent : Option ℚ
  humidity_percent : Option ℚ
  light_lux : Option ℚ
  pump_status : Option String
  light_status : Option String
  reading_id : Option ℕ
  diagnosis : Option String
deriving DecidableEq

/-- The payload with every field absent (an empty dict). -/
def emptyPayload : Payload :=
  { timestamp := none, water_temp_C := none, air_temp_C := none
  , pH := none, ammonia_mgL := none, dissolved_oxygen_mgL := none
  , ec_uScm := none, water_level_percent := none, humidity_percent := none
  , light_lux := none, pump_status := none, light_status := none
  , reading_id := none, diagnosis := none }

/-- `reading.get("dissolved_oxygen_mgL", 10) < THRESHOLDS["do_low"]` -/
def lowDo (t : Thresholds) (r : Payload) : Bool :=
  decide (r.dissolved_oxygen_mgL.getD 10 < t.do_low)

/-- `reading.get("ammonia_mgL", 0) > THRESHOLDS["ammonia_high"]` -/
def highAmmonia (t : Thresholds) (r : Payload) : Bool :=
  decide (r.ammonia_mgL.getD 0 > t.ammonia_high)

/-- `reading.get("water_level_percent", 100) < THRESHOLDS["water_level_low"]` -/
def lowWaterLevel (t : Thresholds) (r : Payload) : Bool :=
  decide (r.water_level_percent.getD 100 < t.water_level_low)

/-- `reading.get("water_temp_C", 20) > THRESHOLDS["temp_high"]` -/
def highTemp (t : Thresholds) (r : Payload) : Bool :=
  decide (r.water_temp_C.getD 20 > t.temp_high)

/-- `reading.get("pH", 7) < THRESHOLDS["ph_low"]` -/
def lowPh (t : Thresholds) (r : Payload) : Bool :=
  decide (r.pH.getD 7 < t.ph_low)

/-- The `diagnose` function of src/api_server.py (lines 81-100),
parameterised by the threshold configuration it reads from the
module-level `THRESHOLDS` dict. -/
def diagnose (t : Thresholds) (r : Payload) : String :=
  if lowWaterLevel t r && lowDo t r then "Pump failure suspected"
  else if highAmmonia t r && lowDo t r then "Overfeeding / biofilter stress"
  else if highTemp t r && lowDo t r then "Thermal oxygen stress"
  else if lowWaterLevel t r then "Leak or evaporation"
  else if lowPh t r then "pH too low - add buffer"
  else "Normal operation"

/-- The six (condition, label) rules of the diagnosis engine, in the
priority order the spec lists them (the last rule is the catch-all). -/
def ruleTable (t : Thresholds) (r : Payload) : List (Bool × String) :=
  [ (lowWaterLevel t r && lowDo t r, "Pump failure suspected")
  , (highAmmonia t r && lowDo t r, "Overfeeding / biofilter stress")
  , (highTemp t r && lowDo t r, "Thermal oxygen stress")
  , (lowWaterLevel t r, "Leak or evaporation")
  , (lowPh t r, "pH too low - add buffer")
  , (true, "Normal operation") ]

/-- Spec-side formulation of the engine: scan the rule table and return
the label of the first rule whose condition holds. -/
def firstMatchDiagnosis (t : Thresholds) (r : Payload) : String :=
  (((ruleTable t r).find? (fun p => p.1)).map (fun p => p.2)).getD "Normal operation"

/-- An alert entry as built by `get_alerts` in src/api_server.py.
The numeric part of the message is rendered with `toString` here; the
Python source interpolates the float the same way structurally. -/
structure Alert where
  type : String
  sensor : String
  message : String
deriving DecidableEq

/-- The alert-evaluation body of `get_alerts` (src/api_server.py lines
310-321): each of the five threshold conditions plus the pump-failure
condition appends one alert.  Inside each branch the field is
necessarily present (a missing field defaults to a non-alerting value),
so `getD` returns the stored value. -/
def evaluate_alerts (t : Thresholds) (r : Payload) : List Alert :=
  (if r.dissolved_oxygen_mgL.getD 10 < t.do_low then
     [⟨"warning", "dissolved_oxygen", "Low DO: " ++ toString (r.dissolved_oxygen_mgL.getD 10) ++ " mg/L"⟩] else []) ++
  (if r.ammonia_mgL.getD 0 > t.ammonia_high then
     [⟨"danger", "ammonia", "High ammonia: " ++ toString (r.ammonia_mgL.getD 0) ++ " mg/L"⟩] else []) ++
  (if r.water_level_percent.getD 100 < t.water_level_low then
     [⟨"danger", "water_level", "Low water: " ++ toString (r.water_level_percent.getD 100) ++ "%"⟩] else []) ++
  (if r.water_temp_C.getD 20 > t.temp_high then
     [⟨"warning", "temperature", "High temp: " ++ toString (r.water_temp_C.getD 20) ++ "C"⟩] else []) ++
  (if r.pH.getD 7 < t.ph_low then
     [⟨"warning", "pH", "Low pH: " ++ toString (r.pH.getD 7)⟩] else []) ++
  (if r.pump_status = some "FAILURE" then
     [⟨"danger", "pump", "Pump failure detected!"⟩] else [])

/-- `MAX_READINGS = 500` in src/api_server.py. -/
def MAX_READINGS : ℕ := 500

/-- The shared server state: the module-level `latest_reading` dict
(empty before the first message, modelled as `none`) and the
`sensor_readings` deque.  The `threading.Lock` guards both fields
together; each lock region is one atomic transition in this model. -/
structure Store where
  latest : Option Payload
  history : List Payload
deriving DecidableEq

/-- The state at server start: `latest_reading = {}` (falsy) and an
empty deque. -/
def initStore : Store := { latest := none, history := [] }

/-- `deque.append` on a deque of maximum length `C`: when the deque is
full the oldest (leftmost) entry is discarded. -/
def dequeAppend (C : ℕ) (h : List Payload) (r : Payload) : List Payload :=
  if h.length < C then h ++ [r] else h.drop 1 ++ [r]

/-- `payload["diagnosis"] = diagnose(payload)` in `on_message`. -/
def enrich (r : Payload) : Payload :=
  { r with diagnosis := some (diagnose THRESHOLDS r) }

/-- The locked region of `on_message` (src/api_server.py lines 122-125)
for a parsed payload, with the deque capacity as a parameter: attach
the diagnosis, then replace `latest_reading` and append to
`sensor_readings` in one atomic step. -/
def ingestC (C : ℕ) (r : Payload) (s : Store) : Store :=
  let p := enrich r
  { latest := some p, history := dequeAppend C s.history p }

/-- `on_message` ingestion with the source's capacity `MAX_READINGS`. -/
def ingest (r : Payload) (s : Store) : Store := ingestC MAX_READINGS r s

/-- Ingest a whole sequence of payloads in delivery order. -/
def ingestAllC (C : ℕ) (rs : List Payload) (s : Store) : Store :=
  rs.foldl (fun st p => ingestC C p st) s

/-- Python `l[k:]` for an integer `k` (possibly negative): a negative
start counts from the right, clamped at 0. -/
def pySliceFrom (k : ℤ) (l : List Payload) : List Payload :=
  if k < 0 then l.drop ((l.length + k).toNat) else l.drop k.toNat

/-- The `/data` endpoint body `get_data` (src/api_server.py lines
224-233): takes a snapshot copy of the deque under the lock, then
returns `readings_list[-limit:]` when the list is longer than `limit`,
otherwise the whole list. -/
def get_data (limit : ℤ) (s : Store) : List Payload :=
  let readings_list := s.history
  if (readings_list.length : ℤ) > limit then pySliceFrom (-limit) readings_list
  else readings_list

/-!  Producer side: src/rpi_sensor_simulator.py. -/

/-- The mutable fields of `AquaponicsSensorSimulator` (src/rpi_sensor_simulator.py
lines 58-70), excluding `start_time`, which is never read again. -/
structure DeviceState where
  reading_count : ℕ
  ph_drift : ℚ
  ec_drift : ℚ
  pump_on : Bool
  light_on : Bool
  pump_failure : Bool
  manual_light : Bool
deriving DecidableEq

/-- The simulator state constructed by `__init__`. -/
def initDevice : DeviceState :=
  { reading_count := 0, ph_drift := 0, ec_drift := 0
  , pump_on := true, light_on := true
  , pump_failure := false, manual_light := false }

/-- One `random.gauss` result per call site of `get_readings`, in
program order. -/
structure Draws where
  ecDriftStep : ℚ
  waterTempNoise : ℚ
  airTempNoise : ℚ
  phNoise : ℚ
  ammoniaDraw : ℚ
  doNoise : ℚ
  waterLevelNoise : ℚ
  humidityNoise : ℚ
  lightNoise : ℚ
deriving DecidableEq

/-- A complete generated reading (the dict returned by `get_readings`):
every field present. -/
structure Reading where
  timestamp : String
  water_temp_C : ℚ
  air_temp_C : ℚ
  pH : ℚ
  ammonia_mgL : ℚ
  dissolved_oxygen_mgL : ℚ
  ec_uScm : ℚ
  water_level_percent : ℚ
  humidity_percent : ℚ
  light_lux : ℚ
  pump_status : String
  light_status : String
  reading_id : ℕ
deriving DecidableEq

/-- `set_pump` (src/rpi_sensor_simulator.py lines 83-91): an
unrecognized state string falls through all branches and changes
nothing. -/
def set_pump (state : String) (s : DeviceState) : DeviceState :=
  if state = "toggle" then { s with pump_on := !s.pump_on }
  else if state = "on" then { s with pump_on := true }
  else if state = "off" then { s with pump_on := false }
  else s

/-- `set_light` (src/rpi_sensor_simulator.py lines 93-104): note that
`manual_light` is set to `True` unconditionally before the state string
is examined; only the `auto` branch resets it. -/
def set_light (state : String) (s : DeviceState) : DeviceState :=
  let s1 : DeviceState := { s with manual_light := true }
  if state = "toggle" then { s1 with light_on := !s1.light_on }
  else if state = "on" then { s1 with light_on := true }
  else if state = "off" then { s1 with light_on := false }
  else if state = "auto" then { s1 with manual_light := false }
  else s1

/-- `set_failure_simulation` (src/rpi_sensor_simulator.py lines 106-109). -/
def set_failure_simulation (enable : Bool) (s : DeviceState) : DeviceState :=
  { s with pump_failure := enable }

/-- A control command as dispatched by the simulator's `on_message`
handler: the topic selects the setter, the `state`/`enable` payload
field is passed through uninterpreted. -/
inductive ControlCommand where
  | pump (state : String)
  | light (state : String)
  | simulateFailure (enable : Bool)
deriving DecidableEq

/-- Dispatch of `on_message` (src/rpi_sensor_simulator.py lines 182-199)
onto the device state. -/
def applyCommand (cmd : ControlCommand) (s : DeviceState) : DeviceState :=
  match cmd with
  | .pump st => set_pump st s
  | .light st => set_light st s
  | .simulateFailure e => set_failure_simulation e s

/-- `daily_cycle(mean, amplitude, noise_std)` (lines 76-81), with the
sine value at the current hour and the Gaussian draw passed in:
`round(mean + amplitude*sin(2*pi*hour/24) + gauss, 2)`. -/
def daily_cycle (sinD : ℤ → ℚ) (hour : ℤ) (mean amplitude noise : ℚ) : ℚ :=
  pyRound 2 (mean + amplitude * sinD hour + noise)

/-- The pump branch of `get_readings` (lines 137-147): status string
and the penalties applied to water level and dissolved oxygen. -/
def pumpBranch (s : DeviceState) (wl do2 : ℚ) : String × ℚ × ℚ :=
  if s.pump_failure then ("FAILURE", wl - 20, do2 - 2)
  else if s.pump_on = false then ("OFF", wl - 5, do2 - 1)
  else ("ON", wl, do2)

/-- `get_readings` (src/rpi_sensor_simulator.py lines 111-163):
increments the reading counter, advances the two drift accumulators,
generates the sensor values, applies the pump branch penalties, clamps
and rounds.  `now` stands for `datetime.now().isoformat()` and `hour`
for `datetime.now().hour`. -/
def get_readings (sinD : ℤ → ℚ) (now : String) (hour : ℤ) (d : Draws)
    (s : DeviceState) : DeviceState × Reading :=
  let s' : DeviceState :=
    { s with reading_count := s.reading_count + 1
           , ph_drift := s.ph_drift - 1/10000
           , ec_drift := s.ec_drift + d.ecDriftStep }
  let water_temp := daily_cycle sinD hour 23.5 1.5 d.waterTempNoise
  let air_temp := daily_cycle sinD hour 22.0 2.0 d.airTempNoise
  let ph := pyRound 2 (6.9 + s'.ph_drift + d.phNoise)
  let ammonia := pyRound 3 (max 0 d.ammoniaDraw)
  let dissolved_oxygen := daily_cycle sinD hour 6.5 0.6 d.doNoise
  let ec := pyRound 1 (900 + s'.ec_drift)
  let water_level := pyRound 1 (95 + d.waterLevelNoise)
  let humidity := daily_cycle sinD hour 60 10 d.humidityNoise
  let light0 : ℚ :=
    if s.manual_light then (if s.light_on then 20000 else 0)
    else max 0 (20000 * sinD (hour - 6))
  let light := pyRound 0 (light0 + d.lightNoise)
  let pb := pumpBranch s water_level dissolved_oxygen
  (s',
   { timestamp := now
   , water_temp_C := water_temp
   , air_temp_C := air_temp
   , pH := ph
   , ammonia_mgL := ammonia
   , dissolved_oxygen_mgL := pyRound 2 (max 0 pb.2.2)
   , ec_uScm := ec
   , water_level_percent := pyRound 1 (max 0 pb.2.1)
   , humidity_percent := pyRound 1 humidity
   , light_lux := max 0 light
   , pump_status := pb.1
   , light_status := if (if s.manual_light then s.light_on else decide (light > 0))
                     then "ON" else "OFF"
   , reading_id := s'.reading_count })

/-!  Concrete inputs used by witnesses and counterexamples. -/

/-- A payload triggering both diagnosis rule 1 (low water, low DO) and
rule 2 (high ammonia, low DO). -/
def r12 : Payload :=
  { emptyPayload with
      water_level_percent := some 70
    , dissolved_oxygen_mgL := some 3
    , ammonia_mgL := some 0.6 }

/-- A payload with only a low pH. -/
def rPh : Payload := { emptyPayload with pH := some 5 }

/-- A store holding three readings. -/
def st3 : Store :=
  { latest := some emptyPayload
  , history := [emptyPayload, emptyPayload, emptyPayload] }

/-- All Gaussian draws zero. -/
def dZero : Draws := ⟨0, 0, 0, 0, 0, 0, 0, 0, 0⟩

/-- Draws with a water-level noise of -95, putting the raw water level
at exactly 0 before any pump penalty. -/
def dCex : Draws := ⟨0, 0, 0, 0, 0, 0, -95, 0, 0⟩

/-- A device state with failure simulation enabled. -/
def sFail : DeviceState :=
  { reading_count := 0, ph_drift := 0, ec_drift := 0
  , pump_on := true, light_on := true
  , pump_failure := true, manual_light := false }

end Aquaponics

namespace Aquaponics

/-! ## Theorems -/

/-- Appending to the bounded deque always leaves the new element last. -/
lemma getLast?_dequeAppend (C : ℕ) (h : List Payload) (r : Payload) :
    (dequeAppend C h r).getLast? = some r := by
  unfold dequeAppend
  split <;> simp

/-- After any single ingest step the latest slot and the end of the
history agree. -/
lemma ingestC_consistent (C : ℕ) (r : Payload) (s : Store) :
    (ingestC C r s).latest = (ingestC C r s).history.getLast? := by
  simp [ingestC, getLast?_dequeAppend]

/-- Consistency of the (latest, history) pair is preserved by any
sequence of ingest steps. -/
lemma ingestAllC_consistent (C : ℕ) (rs : List Payload) :
    ∀ s : Store, s.latest = s.history.getLast? →
      (ingestAllC C rs s).latest = (ingestAllC C rs s).history.getLast? := by
  induction rs with
  | nil => intro s hs; exact hs
  | cons a l ih =>
      intro s _
      exact ih (ingestC C a s) (ingestC_consistent C a s)

/-- The bounded append, explicitly: drop the overflow from the left. -/
lemma dequeAppend_eq_drop (C : ℕ) (hC : 1 ≤ C) (h : List Payload) (r : Payload)
    (hh : h.length ≤ C) :
    dequeAppend C h r = (h ++ [r]).drop (h.length + 1 - C) := by
  unfold dequeAppend
  split
  · have hz : h.length + 1 - C = 0 := by omega
    simp [hz]
  · have hl : h.length = C := by omega
    have ho : h.length + 1 - C = 1 := by omega
    rw [ho]
    have hd : (h ++ [r]).drop 1 = h.drop 1 ++ [r] :=
      List.drop_append_of_le_length (by omega)
    rw [hd]

/-- Folding the bounded append over a list keeps exactly the last `C`
elements of the concatenation. -/
lemma foldl_dequeAppend (C : ℕ) (hC : 1 ≤ C) :
    ∀ (l : List Payload) (h : List Payload), h.length ≤ C →
      l.foldl (dequeAppend C) h = (h ++ l).drop (h.length + l.length - C) := by
  intro l
  induction l with
  | nil =>
      intro h hh
      simp only [List.foldl_nil, List.append_nil, List.length_nil, Nat.add_zero]
      have hz : h.length - C = 0 := by omega
      rw [hz, List.drop_zero]
  | cons a l ih =>
      intro h hh
      show l.foldl (dequeAppend C) (dequeAppend C h a) = _
      rw [dequeAppend_eq_drop C hC h a hh]
      set k := h.length + 1 - C with hk
      have hdl : ((h ++ [a]).drop k).length = h.length + 1 - k := by
        simp [List.length_drop]
      have hlen : ((h ++ [a]).drop k).length ≤ C := by omega
      rw [ih _ hlen, hdl]
      have hkle : k ≤ (h ++ [a]).length := by simp; omega
      rw [← List.drop_append_of_le_length hkle, List.drop_drop]
      have harr : k + (h.length + 1 - k + l.length - C)
          = h.length + (a :: l).length - C := by
        simp only [List.length_cons]
        omega
      rw [harr, List.append_assoc]
      rfl

/-- The history produced by ingesting a sequence is the fold of the
bounded append over the enriched payloads. -/
lemma history_ingestAllC (C : ℕ) (rs : List Payload) :
    ∀ s : Store, (ingestAllC C rs s).history =
      (rs.map enrich).foldl (dequeAppend C) s.history := by
  induction rs with
  | nil => intro s; rfl
  | cons a l ih =>
      intro s
      show (ingestAllC C l (ingestC C a s)).history = _
      rw [ih]
      rfl

/-- C1: ingestion is atomic with respect to the pair (latest, history):
one locked step replaces `latest` and appends to the history, so after
`ingest r` the latest slot holds the enriched `r` and the newest history
entry is that same payload, and in every state reachable by a sequence
of ingest steps from the initial store the latest slot equals the last
history entry — no state with `latest` at reading K and the history
ending at K-1 exists. -/
theorem ingest_atomic_pair :
    (∀ (s : Store) (r : Payload),
      (ingest r s).latest = some (enrich r) ∧
      (ingest r s).history.getLast? = some (enrich r)) ∧
    (∀ rs : List Payload,
      (ingestAllC MAX_READINGS rs initStore).latest
        = (ingestAllC MAX_READINGS rs initStore).history.getLast?) := by
  constructor
  · intro s r
    exact ⟨rfl, getLast?_dequeAppend MAX_READINGS s.history (enrich r)⟩
  · intro rs
    exact ingestAllC_consistent MAX_READINGS rs initStore rfl

/-- C2: with capacity `C` (the source fixes `MAX_READINGS = 500`),
ingesting more than `C` readings from the empty store leaves exactly
`C` stored readings, namely the enriched last `C` payloads in delivery
order; and every single ingest step preserves `history.length ≤ C`. -/
theorem history_capacity_fifo :
    MAX_READINGS = 500 ∧
    (∀ (C : ℕ) (rs : List Payload), 1 ≤ C → C < rs.length →
      (ingestAllC C rs initStore).history.length = C ∧
      (ingestAllC C rs initStore).history
        = (rs.map enrich).drop (rs.length - C)) ∧
    (∀ (C : ℕ) (r : Payload) (s : Store), 1 ≤ C → s.history.length ≤ C →
      (ingestC C r s).history.length ≤ C) := by
  refine ⟨rfl, ?_, ?_⟩
  · intro C rs hC hlen
    have hh : (ingestAllC C rs initStore).history
        = (rs.map enrich).foldl (dequeAppend C) ([] : List Payload) :=
      history_ingestAllC C rs initStore
    rw [foldl_dequeAppend C hC (rs.map enrich) [] (by simp)] at hh
    simp only [List.nil_append, List.length_nil, List.length_map, Nat.zero_add] at hh
    refine ⟨?_, hh⟩
    rw [hh]
    simp only [List.length_drop, List.length_map]
    omega
  · intro C r s hC hs
    show (dequeAppend C s.history (enrich r)).length ≤ C
    unfold dequeAppend
    split
    · next hlt =>
        simp only [List.length_append, List.length_cons, List.length_nil,
          Nat.zero_add]
        exact hlt
    · next hge =>
        simp only [List.length_append, List.length_cons, List.length_nil,
          List.length_drop]
        omega

/-- Witness for C2: capacity 1, two ingested payloads, one stored
reading equal to the enriched last payload; and one step from a
length-0 history stays within capacity. -/
theorem history_capacity_fifo_witness :
    (1 ≤ 1 ∧ 1 < ([emptyPayload, rPh] : List Payload).length) ∧
    ((ingestAllC 1 [emptyPayload, rPh] initStore).history.length = 1 ∧
      (ingestAllC 1 [emptyPayload, rPh] initStore).history
        = (([emptyPayload, rPh] : List Payload).map enrich).drop
            (([emptyPayload, rPh] : List Payload).length - 1)) ∧
    (initStore.history.length ≤ 1 ∧
      (ingestC 1 emptyPayload initStore).history.length ≤ 1) :=
  ⟨⟨by decide, by decide⟩,
    history_capacity_fifo.2.1 1 [emptyPayload, rPh] (by decide) (by decide),
    ⟨by decide,
      history_capacity_fifo.2.2 1 emptyPayload initStore (by decide) (by decide)⟩⟩

/-- C5 counterexample: with one stored reading and `limit = 0` the
`/data` query returns the whole history (one entry), not
`min(limit, length) = 0` entries: `readings_list[-0:]` is the full
list. -/
theorem get_data_zero_limit_counterexample :
    get_data 0 { latest := some emptyPayload, history := [emptyPayload] }
      = [emptyPayload] ∧
    (min 0 ([emptyPayload] : List Payload).length = 0) ∧
    ([emptyPayload] : List Payload) ≠ [] := by
  refine ⟨rfl, rfl, by decide⟩

/-- C5 amended: for `limit ≥ 1` the query returns exactly the most
recent `min(limit, length)` history entries, newest-last (the suffix of
the snapshot); for `limit = 0` it returns the entire history rather
than zero entries. -/
theorem get_data_amended :
    ∀ (s : Store) (limit : ℤ),
      (1 ≤ limit →
        get_data limit s = s.history.drop (s.history.length - limit.toNat) ∧
        (get_data limit s).length = min limit.toNat s.history.length) ∧
      get_data 0 s = s.history := by
  intro s limit
  constructor
  · intro hl
    simp only [get_data, pySliceFrom]
    by_cases hc : (s.history.length : ℤ) > limit
    · rw [if_pos hc, if_pos (by omega)]
      have he : ((s.history.length : ℤ) + -limit).toNat
          = s.history.length - limit.toNat := by omega
      rw [he]
      refine ⟨rfl, ?_⟩
      simp [List.length_drop]
      omega
    · rw [if_neg hc]
      have he : s.history.length - limit.toNat = 0 := by omega
      rw [he, List.drop_zero]
      refine ⟨rfl, ?_⟩
      omega
  · simp only [get_data, pySliceFrom]
    split
    · simp
    · rfl

/-- Witness for the amended C5 on a three-entry store with limit 2. -/
theorem get_data_amended_witness :
    (1 ≤ (2 : ℤ)) ∧
    (get_data 2 st3 = st3.history.drop (st3.history.length - (2 : ℤ).toNat) ∧
      (get_data 2 st3).length = min (2 : ℤ).toNat st3.history.length) ∧
    get_data 0 st3 = st3.history :=
  ⟨by decide, (get_data_amended st3 2).1 (by decide), (get_data_amended st3 2).2⟩

/-- C3: `diagnose` evaluates its six rules in fixed priority order with
first match winning (`diagnose` coincides with the first-match scan of
the rule table), and whenever both rule 1 (low water level and low DO)
and rule 2 (high ammonia and low DO) hold, the result is the rule-1
label "Pump failure suspected". -/
theorem diagnose_priority_first_match :
    ∀ (t : Thresholds) (r : Payload),
      diagnose t r = firstMatchDiagnosis t r ∧
      ((lowWaterLevel t r && lowDo t r) = true →
        (highAmmonia t r && lowDo t r) = true →
        diagnose t r = "Pump failure suspected") := by
  intro t r
  refine ⟨?_, ?_⟩
  · cases hW : lowWaterLevel t r <;> cases hD : lowDo t r <;>
      cases hA : highAmmonia t r <;> cases hT : highTemp t r <;>
      cases hP : lowPh t r <;>
      simp [diagnose, firstMatchDiagnosis, ruleTable, hW, hD, hA, hT, hP,
        List.find?]
  · intro h1 _h2
    simp [diagnose, h1]

/-- Witness for C3 at a concrete reading firing rules 1 and 2. -/
theorem diagnose_priority_first_match_witness :
    (lowWaterLevel THRESHOLDS r12 && lowDo THRESHOLDS r12) = true ∧
    (highAmmonia THRESHOLDS r12 && lowDo THRESHOLDS r12) = true ∧
    diagnose THRESHOLDS r12 = "Pump failure suspected" :=
  ⟨by with_unfolding_all decide, by with_unfolding_all decide,
    (diagnose_priority_first_match THRESHOLDS r12).2 (by with_unfolding_all decide) (by with_unfolding_all decide)⟩

/-- C7: on the pump, `toggle` applied twice restores the exact device
state, and `on` (resp. `off`) applied twice equals applying it once. -/
theorem pump_toggle_involutive_on_idempotent :
    ∀ s : DeviceState,
      applyCommand (.pump "toggle") (applyCommand (.pump "toggle") s) = s ∧
      applyCommand (.pump "on") (applyCommand (.pump "on") s) =
        applyCommand (.pump "on") s ∧
      applyCommand (.pump "off") (applyCommand (.pump "off") s) =
        applyCommand (.pump "off") s := by
  intro s
  rcases s with ⟨a, b, c, po, lo, pf, ml⟩
  refine ⟨?_, ?_, ?_⟩ <;> cases po <;> rfl

/-- C9 counterexample: at a reading whose only violation is a low pH,
`diagnose` does not return the em-dash label the claim states; the
code's label uses a plain hyphen. -/
theorem diagnose_low_ph_label_counterexample :
    lowPh THRESHOLDS rPh = true ∧
    lowWaterLevel THRESHOLDS rPh = false ∧
    highAmmonia THRESHOLDS rPh = false ∧
    highTemp THRESHOLDS rPh = false ∧
    diagnose THRESHOLDS rPh ≠ "pH too low — add buffer" := by
  refine ⟨by with_unfolding_all decide, by with_unfolding_all decide, by with_unfolding_all decide, by with_unfolding_all decide, by with_unfolding_all decide⟩

/-- C9 amended: when the pH is below the low-pH bound and the water
level, ammonia and temperature conditions are all false, `diagnose`
returns exactly "pH too low - add buffer" (plain ASCII hyphen). -/
theorem diagnose_low_ph_label :
    ∀ (t : Thresholds) (r : Payload),
      lowPh t r = true → lowWaterLevel t r = false →
      highAmmonia t r = false → highTemp t r = false →
      diagnose t r = "pH too low - add buffer" := by
  intro t r hP hW hA hT
  simp [diagnose, hP, hW, hA, hT]

/-- Witness for the amended C9 at a concrete low-pH reading. -/
theorem diagnose_low_ph_label_witness :
    lowPh THRESHOLDS rPh = true ∧
    diagnose THRESHOLDS rPh = "pH too low - add buffer" :=
  ⟨by with_unfolding_all decide,
    diagnose_low_ph_label THRESHOLDS rPh (by with_unfolding_all decide) (by with_unfolding_all decide)
      (by with_unfolding_all decide) (by with_unfolding_all decide)⟩

/-- C6 counterexample: an unrecognized light state string is not a
no-op on the device state: `set_light` switches `manual_light` on
before examining the state string. -/
theorem unrecognized_light_not_noop_counterexample :
    (applyCommand (.light "bogus") initDevice).manual_light = true ∧
    initDevice.manual_light = false := by
  constructor <;> rfl

/-- C6 amended: an unrecognized pump state string leaves the device
state entirely unchanged; an unrecognized light state string leaves
`light_on` unchanged but sets the manual-light mode flag to `true`
(and changes nothing else). -/
theorem unrecognized_command_semantics :
    ∀ (s : DeviceState) (st : String),
      st ≠ "toggle" → st ≠ "on" → st ≠ "off" →
      (applyCommand (.pump st) s = s ∧
        (st ≠ "auto" →
          (applyCommand (.light st) s).light_on = s.light_on ∧
          applyCommand (.light st) s = { s with manual_light := true })) := by
  intro s st h1 h2 h3
  refine ⟨?_, ?_⟩
  · simp [applyCommand, set_pump, h1, h2, h3]
  · intro h4
    refine ⟨?_, ?_⟩ <;> simp [applyCommand, set_light, h1, h2, h3, h4]

/-- Witness for the amended C6 at the initial device state and the
state string "bogus". -/
theorem unrecognized_command_semantics_witness :
    applyCommand (.pump "bogus") initDevice = initDevice ∧
    ((("bogus" : String) ≠ "auto") →
      (applyCommand (.light "bogus") initDevice).light_on = initDevice.light_on ∧
      applyCommand (.light "bogus") initDevice =
        { initDevice with manual_light := true }) :=
  unrecognized_command_semantics initDevice "bogus"
    (by decide) (by decide) (by decide)

/-- C8: a missing sensor field never triggers its threshold condition
(each condition is false when its field is absent, under the source's
`THRESHOLDS`), and a reading with all sensor fields missing yields the
diagnosis "Normal operation" and an empty alert list. -/
theorem missing_fields_safe :
    ∀ r : Payload,
      (r.dissolved_oxygen_mgL = none → lowDo THRESHOLDS r = false) ∧
      (r.ammonia_mgL = none → highAmmonia THRESHOLDS r = false) ∧
      (r.water_level_percent = none → lowWaterLevel THRESHOLDS r = false) ∧
      (r.water_temp_C = none → highTemp THRESHOLDS r = false) ∧
      (r.pH = none → lowPh THRESHOLDS r = false) ∧
      (r.pump_status = none → decide (r.pump_status = some "FAILURE") = false) ∧
      ((r.dissolved_oxygen_mgL = none ∧ r.ammonia_mgL = none ∧
        r.water_level_percent = none ∧ r.water_temp_C = none ∧
        r.pH = none ∧ r.pump_status = none) →
        diagnose THRESHOLDS r = "Normal operation" ∧
        evaluate_alerts THRESHOLDS r = []) := by
  intro r
  refine ⟨?_, ?_, ?_, ?_, ?_, ?_, ?_⟩
  · intro h; simp only [lowDo, h]; with_unfolding_all decide
  · intro h; simp only [highAmmonia, h]; with_unfolding_all decide
  · intro h; simp only [lowWaterLevel, h]; with_unfolding_all decide
  · intro h; simp only [highTemp, h]; with_unfolding_all decide
  · intro h; simp only [lowPh, h]; with_unfolding_all decide
  · intro h; simp [h]
  · rintro ⟨h1, h2, h3, h4, h5, h6⟩
    constructor
    · simp only [diagnose, lowDo, highAmmonia, lowWaterLevel, highTemp, lowPh,
        h1, h2, h3, h4, h5]
      norm_num [THRESHOLDS]
    · simp only [evaluate_alerts, h1, h2, h3, h4, h5, h6]
      norm_num [THRESHOLDS]
      exact fun h => Option.noConfusion h

/-- Witness for C8 at the all-missing payload. -/
theorem missing_fields_safe_witness :
    diagnose THRESHOLDS emptyPayload = "Normal operation" ∧
    evaluate_alerts THRESHOLDS emptyPayload = [] :=
  (missing_fields_safe emptyPayload).2.2.2.2.2.2
    ⟨rfl, rfl, rfl, rfl, rfl, rfl⟩

/-- C10: `get_readings` leaves `pump_on`, `light_on`, `pump_failure`
and `manual_light` unchanged, mutating only the reading counter and the
two drift accumulators; the returned `reading_id` is the incremented
counter, so the id strictly increases across successive readings. -/
theorem get_readings_frame :
    ∀ (sinD : ℤ → ℚ) (now now2 : String) (hour hour2 : ℤ) (d d2 : Draws)
      (s : DeviceState),
      (get_readings sinD now hour d s).1.pump_on = s.pump_on ∧
      (get_readings sinD now hour d s).1.light_on = s.light_on ∧
      (get_readings sinD now hour d s).1.pump_failure = s.pump_failure ∧
      (get_readings sinD now hour d s).1.manual_light = s.manual_light ∧
      (get_readings sinD now hour d s).1.reading_count = s.reading_count + 1 ∧
      (get_readings sinD now hour d s).1.ph_drift = s.ph_drift - 1/10000 ∧
      (get_readings sinD now hour d s).1.ec_drift = s.ec_drift + d.ecDriftStep ∧
      (get_readings sinD now hour d s).2.reading_id = s.reading_count + 1 ∧
      (get_readings sinD now2 hour2 d2 (get_readings sinD now hour d s).1).2.reading_id
        > (get_readings sinD now hour d s).2.reading_id := by
  intro sinD now now2 hour hour2 d d2 s
  refine ⟨rfl, rfl, rfl, rfl, rfl, rfl, rfl, rfl, ?_⟩
  show s.reading_count + 1 + 1 > s.reading_count + 1
  omega

/-- Half-even rounding of an integer is that integer. -/
lemma roundHE_intCast (n : ℤ) : roundHE (n : ℚ) = n := by
  unfold roundHE
  rw [Int.floor_intCast, sub_self]
  norm_num

/-- `pyRound` is the identity on the `d`-decimal grid. -/
lemma pyRound_grid (d : ℕ) (n : ℤ) :
    pyRound d ((n : ℚ) / 10 ^ d) = (n : ℚ) / 10 ^ d := by
  have h10 : ((10 : ℚ)) ^ d ≠ 0 := by positivity
  unfold pyRound
  rw [div_mul_cancel₀ _ h10, roundHE_intCast]

/-- Subtracting an integer keeps a value on the grid. -/
lemma grid_sub (d : ℕ) (m k : ℤ) :
    (m : ℚ) / 10 ^ d - (k : ℚ) = ((m - k * 10 ^ d : ℤ) : ℚ) / 10 ^ d := by
  have h10 : ((10 : ℚ)) ^ d ≠ 0 := by positivity
  push_cast
  field_simp
  ring

/-- Clamping at zero keeps a value on the grid. -/
lemma grid_max (d : ℕ) (a : ℤ) :
    max 0 ((a : ℚ) / 10 ^ d) = ((max 0 a : ℤ) : ℚ) / 10 ^ d := by
  rcases le_or_lt a 0 with h | h
  · have h1 : ((a : ℚ)) ≤ 0 := by exact_mod_cast h
    have h2 : ((a : ℚ)) / 10 ^ d ≤ 0 :=
      div_nonpos_of_nonpos_of_nonneg h1 (by positivity)
    rw [max_eq_left h2, max_eq_left h]
    simp
  · have h1 : (0 : ℚ) ≤ (a : ℚ) / 10 ^ d :=
      div_nonneg (by exact_mod_cast h.le) (by positivity)
    rw [max_eq_right h1, max_eq_right h.le]

/-- Rounding again after clamping a rounded value minus an integer
penalty changes nothing: the argument is already on the grid. -/
lemma pyRound_max_sub (d : ℕ) (y k : ℚ) (n : ℤ) (hk : k = (n : ℚ)) :
    pyRound d (max 0 (pyRound d y - k)) = max 0 (pyRound d y - k) := by
  have h1 : pyRound d y - k
      = ((roundHE (y * 10 ^ d) - n * 10 ^ d : ℤ) : ℚ) / 10 ^ d := by
    rw [hk]
    exact grid_sub d (roundHE (y * 10 ^ d)) n
  rw [h1, grid_max, pyRound_grid]

/-- A larger penalty never increases the clamped value. -/
lemma max_zero_sub_le (x p q : ℚ) (hpq : q ≤ p) :
    max 0 (x - p) ≤ max 0 (x - q) :=
  max_le_max le_rfl (by linarith)

/-- A strictly larger penalty strictly decreases the clamped value
whenever the smaller-penalty value is positive. -/
lemma max_zero_sub_lt (x p q : ℚ) (hpq : q < p) (h : 0 < max 0 (x - q)) :
    max 0 (x - p) < max 0 (x - q) := by
  have hxq : 0 < x - q := by
    by_contra hh
    push_neg at hh
    rw [max_eq_left hh] at h
    exact lt_irrefl 0 h
  rw [max_eq_right hxq.le]
  rcases le_or_lt (x - p) 0 with hle | hlt
  · rw [max_eq_left hle]
    exact hxq
  · rw [max_eq_right hlt.le]
    linarith

/-- The pump branch under failure simulation. -/
lemma pumpBranch_failure (s : DeviceState) (h : s.pump_failure = true)
    (wl do2 : ℚ) : pumpBranch s wl do2 = ("FAILURE", wl - 20, do2 - 2) := by
  simp [pumpBranch, h]

/-- The pump branch with no failure and the pump off. -/
lemma pumpBranch_off (s : DeviceState) (h1 : s.pump_failure = false)
    (h2 : s.pump_on = false) (wl do2 : ℚ) :
    pumpBranch s wl do2 = ("OFF", wl - 5, do2 - 1) := by
  simp [pumpBranch, h1, h2]

/-- The pump branch with no failure and the pump on. -/
lemma pumpBranch_on (s : DeviceState) (h1 : s.pump_failure = false)
    (h2 : s.pump_on = true) (wl do2 : ℚ) :
    pumpBranch s wl do2 = ("ON", wl, do2) := by
  simp [pumpBranch, h1, h2]

/-- C4 counterexample: with a water-level draw of -95 the raw water
level is exactly 0, so both the failure reading and the same tick with
failure disabled report a water level clamped to 0 — not strictly
lower. -/
theorem failure_penalty_counterexample :
    sFail.pump_failure = true ∧
    (get_readings (fun _ => 0) "t" 0 dCex sFail).2.water_level_percent = 0 ∧
    (get_readings (fun _ => 0) "t" 0 dCex
      { sFail with pump_failure := false }).2.water_level_percent = 0 ∧
    ¬((get_readings (fun _ => 0) "t" 0 dCex sFail).2.water_level_percent
      < (get_readings (fun _ => 0) "t" 0 dCex
          { sFail with pump_failure := false }).2.water_level_percent) := by
  refine ⟨rfl, ?_, ?_, ?_⟩ <;> with_unfolding_all decide

/-- C4 amended: with failure simulation enabled the next reading has
pump status "FAILURE"; its water level and dissolved oxygen are never
negative, are at most the same tick's values with failure disabled
(same hour, same draws), and are strictly lower whenever the
failure-disabled reading's value is positive (the clamp at 0 makes the
two values equal — both 0 — otherwise). -/
theorem failure_penalty_strict (sinD : ℤ → ℚ) (now : String) (hour : ℤ)
    (d : Draws) (s : DeviceState) (hfail : s.pump_failure = true) :
    (get_readings sinD now hour d s).2.pump_status = "FAILURE" ∧
    0 ≤ (get_readings sinD now hour d s).2.water_level_percent ∧
    0 ≤ (get_readings sinD now hour d s).2.dissolved_oxygen_mgL ∧
    (get_readings sinD now hour d s).2.water_level_percent
      ≤ (get_readings sinD now hour d
          { s with pump_failure := false }).2.water_level_percent ∧
    (get_readings sinD now hour d s).2.dissolved_oxygen_mgL
      ≤ (get_readings sinD now hour d
          { s with pump_failure := false }).2.dissolved_oxygen_mgL ∧
    (0 < (get_readings sinD now hour d
        { s with pump_failure := false }).2.water_level_percent →
      (get_readings sinD now hour d s).2.water_level_percent
        < (get_readings sinD now hour d
            { s with pump_failure := false }).2.water_level_percent) ∧
    (0 < (get_readings sinD now hour d
        { s with pump_failure := false }).2.dissolved_oxygen_mgL →
      (get_readings sinD now hour d s).2.dissolved_oxygen_mgL
        < (get_readings sinD now hour d
            { s with pump_failure := false }).2.dissolved_oxygen_mgL) := by
  have est : ∀ st : DeviceState, (get_readings sinD now hour d st).2.pump_status
      = (pumpBranch st (pyRound 1 (95 + d.waterLevelNoise))
          (pyRound 2 (6.5 + 0.6 * sinD hour + d.doNoise))).1 := fun st => rfl
  have ew : ∀ st : DeviceState,
      (get_readings sinD now hour d st).2.water_level_percent
      = pyRound 1 (max 0 ((pumpBranch st (pyRound 1 (95 + d.waterLevelNoise))
          (pyRound 2 (6.5 + 0.6 * sinD hour + d.doNoise))).2.1)) := fun st => rfl
  have edo : ∀ st : DeviceState,
      (get_readings sinD now hour d st).2.dissolved_oxygen_mgL
      = pyRound 2 (max 0 ((pumpBranch st (pyRound 1 (95 + d.waterLevelNoise))
          (pyRound 2 (6.5 + 0.6 * sinD hour + d.doNoise))).2.2)) := fun st => rfl
  simp only [est, ew, edo]
  rw [pumpBranch_failure s hfail]
  cases hpo : s.pump_on
  case false =>
    rw [pumpBranch_off
      ⟨s.reading_count, s.ph_drift, s.ec_drift, false, s.light_on, false,
        s.manual_light⟩ rfl rfl]
    dsimp only
    rw [pyRound_max_sub 1 (95 + d.waterLevelNoise) 20 20 (by norm_num),
      pyRound_max_sub 1 (95 + d.waterLevelNoise) 5 5 (by norm_num),
      pyRound_max_sub 2 (6.5 + 0.6 * sinD hour + d.doNoise) 2 2 (by norm_num),
      pyRound_max_sub 2 (6.5 + 0.6 * sinD hour + d.doNoise) 1 1 (by norm_num)]
    exact ⟨rfl, le_max_left _ _, le_max_left _ _,
      max_zero_sub_le _ 20 5 (by norm_num),
      max_zero_sub_le _ 2 1 (by norm_num),
      fun h => max_zero_sub_lt _ 20 5 (by norm_num) h,
      fun h => max_zero_sub_lt _ 2 1 (by norm_num) h⟩
  case true =>
    rw [pumpBranch_on
      ⟨s.reading_count, s.ph_drift, s.ec_drift, true, s.light_on, false,
        s.manual_light⟩ rfl rfl]
    dsimp only
    have hW0 : pyRound 1 (max 0 (pyRound 1 (95 + d.waterLevelNoise)))
        = max 0 (pyRound 1 (95 + d.waterLevelNoise)) := by
      have h := pyRound_max_sub 1 (95 + d.waterLevelNoise) 0 0 (by norm_num)
      simpa using h
    have hD0 : pyRound 2 (max 0 (pyRound 2 (6.5 + 0.6 * sinD hour + d.doNoise)))
        = max 0 (pyRound 2 (6.5 + 0.6 * sinD hour + d.doNoise)) := by
      have h := pyRound_max_sub 2 (6.5 + 0.6 * sinD hour + d.doNoise) 0 0
        (by norm_num)
      simpa using h
    rw [pyRound_max_sub 1 (95 + d.waterLevelNoise) 20 20 (by norm_num),
      pyRound_max_sub 2 (6.5 + 0.6 * sinD hour + d.doNoise) 2 2 (by norm_num),
      hW0, hD0]
    refine ⟨rfl, le_max_left _ _, le_max_left _ _, ?_, ?_, ?_, ?_⟩
    · have h := max_zero_sub_le (pyRound 1 (95 + d.waterLevelNoise)) 20 0
        (by norm_num)
      simpa using h
    · have h := max_zero_sub_le (pyRound 2 (6.5 + 0.6 * sinD hour + d.doNoise))
        2 0 (by norm_num)
      simpa using h
    · intro h
      have h2 := max_zero_sub_lt (pyRound 1 (95 + d.waterLevelNoise)) 20 0
        (by norm_num) (by simpa using h)
      simpa using h2
    · intro h
      have h2 := max_zero_sub_lt
        (pyRound 2 (6.5 + 0.6 * sinD hour + d.doNoise)) 2 0
        (by norm_num) (by simpa using h)
      simpa using h2

/-- Witness for the amended C4: failure state, all draws zero, hour 0:
status is FAILURE and the strict water-level and oxygen drops follow
from the theorem with the positivity side conditions evaluated. -/
theorem failure_penalty_strict_witness :
    sFail.pump_failure = true ∧
    (get_readings (fun _ => 0) "t" 0 dZero sFail).2.pump_status = "FAILURE" ∧
    (get_readings (fun _ => 0) "t" 0 dZero sFail).2.water_level_percent
      < (get_readings (fun _ => 0) "t" 0 dZero
          { sFail with pump_failure := false }).2.water_level_percent ∧
    (get_readings (fun _ => 0) "t" 0 dZero sFail).2.dissolved_oxygen_mgL
      < (get_readings (fun _ => 0) "t" 0 dZero
          { sFail with pump_failure := false }).2.dissolved_oxygen_mgL :=
  ⟨rfl,
    (failure_penalty_strict (fun _ => 0) "t" 0 dZero sFail rfl).1,
    (failure_penalty_strict (fun _ => 0) "t" 0 dZero sFail rfl).2.2.2.2.2.1
      (by with_unfolding_all decide),
    (failure_penalty_strict (fun _ => 0) "t" 0 dZero sFail rfl).2.2.2.2.2.2
      (by with_unfolding_all decide)⟩

end Aquaponics
